import Mathlib

/-
Verification of the Blue Eye mission controller
(src/blue_eye_v10/blue_eye_v10.ino) against its specification.

The sketch is single-threaded and deterministic, so we embed it as pure
state-passing functions over an explicit mission state `St`:
  * `clock` models the monotonic millisecond counter read by millis();
    every `delay(ms)` call advances it by `ms`.  All other statements are
    modelled as instantaneous (the spec treats the sampling work itself as
    taking no time; only explicit delay() calls consume time).
  * `idx` is the index of the next DHT22 sample; the physical sensor is
    modelled by an environment function `env : Nat → Reading` giving the
    reading returned by the n-th call of readDHT22Values.
  * `events` is the ordered trace of observable side effects (pin writes,
    UDP packets, TCP request payloads, log lines).

Floating point: the sketch compares the DHT22 temperature with `t > 80.0`.
All values involved are exactly representable, so temperature and humidity
are embedded as `Option ℚ`, with `none` standing for NaN (a failed read).
In C, `NaN > 80.0` evaluates to false, which the embedding reproduces.
-/

namespace BlueEye

/-- One DHT22 acquisition: humidity and temperature, `none` = NaN
(failed read), mirroring `dht.readHumidity()` / `dht.readTemperature()`. -/
structure Reading where
  h : Option ℚ
  t : Option ℚ
deriving DecidableEq

/-- Observable side effects of the sketch, in program order. -/
inductive Ev where
  /-- printInLog of a literal message (timestamp prefix abstracted). -/
  | log (msg : String)
  /-- printInLog of the humidity/temperature line; the float formatting of
  `String(h)`/`String(t)` is abstracted by recording the logged values. -/
  | logReading (r : Reading)
  /-- digitalWrite(burnwirePin, HIGH/LOW). -/
  | burn (b : Bool)
  /-- analogWrite(lightsPin, v). -/
  | lightsA (v : Nat)
  /-- digitalWrite(lightsPin, HIGH/LOW). -/
  | lightsD (b : Bool)
  /-- digitalWrite(LEDmagswitch, HIGH/LOW). -/
  | ledMag (b : Bool)
  /-- digitalWrite(LEDwifi, HIGH/LOW). -/
  | ledWifi (b : Bool)
  /-- Udp.write of a packet (Udp.beginPacket/endPacket framing elided). -/
  | udpPacket (bytes : List Nat)
  /-- client.print of a request payload after a successful client.connect. -/
  | clientPrint (req : String)
  /-- WiFi.disconnect(). -/
  | wifiDisconnect
deriving DecidableEq

/-- Mission state threaded through the embedded sketch. -/
structure St where
  clock : Nat
  idx : Nat
  events : List Ev
deriving DecidableEq

/-- Append one observable event. -/
def emit (e : Ev) (s : St) : St :=
  { s with events := s.events ++ [e] }

/-- delay(ms): the only way time passes in the model. -/
def delayMs (ms : Nat) (s : St) : St :=
  { s with clock := s.clock + ms }

-- Configuration constants, verbatim from the sketch.

/-- `const int oneMinute = 60000`. -/
def oneMinute : Nat := 60000

/-- `int dropTime = 1` (minutes of descent). -/
def dropTime : Nat := 1

/-- `int recordingTime = 20` (minutes of recording). -/
def recordingTime : Nat := 20

/-- The literal `80.0` in `if (t > 80.0)`. -/
def tempThreshold : ℚ := 80

/-- `byte remote_MAC_ADD[] = { 0xf6, 0xdd, 0x9e, 0x82, 0x7d, 0x4e }`. -/
def remote_MAC_ADD : List Nat := [0xf6, 0xdd, 0x9e, 0x82, 0x7d, 0x4e]

/-- `const char* host = "10.5.5.9"`. -/
def host : String := "10.5.5.9"

/-- The C comparison `t > 80.0` applied to a reading: false when the
temperature is NaN (`none`), since `NaN > 80.0` is false in C. -/
def tempFault (r : Reading) : Bool :=
  match r.t with
  | none => false
  | some x => decide (tempThreshold < x)

/-- printInLog during the mission (the SD card is initialized once setup
has completed, so mission-time appends succeed). -/
def printInLog (msg : String) (s : St) : St :=
  emit (Ev.log msg) s

/-- BurnWire(): log, energize the burnwire pin, hold ten minutes,
deenergize, log. -/
def BurnWire (s : St) : St :=
  let s := printInLog "Burning wire" s
  let s := emit (Ev.burn true) s
  let s := delayMs (oneMinute * 10) s
  let s := emit (Ev.burn false) s
  printInLog "End of mission. blue_eye is coming up!" s

/-- readDHT22Values(): read humidity and temperature (one fresh reading per
call, supplied by `env` at the current sample index), fire the burnwire if
the temperature compares above 80.0, then either log a read failure (if
either value is NaN) or log the values. -/
def readDHT22Values (env : Nat → Reading) (s : St) : St :=
  let r := env s.idx
  let s := { s with idx := s.idx + 1 }
  let s := if tempFault r then BurnWire s else s
  if r.h.isNone || r.t.isNone then
    printInLog "Failed to read from DHT sensor" s
  else
    emit (Ev.logReading r) s

/-- Fueled evaluator for the sketch's wait loops
`while (millis() < deadline) { readDHT22Values(); delay(oneMinute); }`.
Each iteration advances the clock by at least `oneMinute`, so
`deadline - s.clock` units of fuel always suffice; `waitLoop` below uses
exactly that amount, and `waitLoop_eq` proves the resulting function
satisfies the while loop's defining equation. -/
def waitAux (env : Nat → Reading) (deadline : Nat) : Nat → St → St
  | 0, s => s
  | fuel + 1, s =>
    if s.clock < deadline then
      waitAux env deadline fuel (delayMs oneMinute (readDHT22Values env s))
    else s

/-- The wait loop `while (millis() < deadline) { readDHT22Values();
delay(oneMinute); }` from loop() (used for both descent and recording). -/
def waitLoop (env : Nat → Reading) (deadline : Nat) (s : St) : St :=
  waitAux env deadline (deadline - s.clock) s

/-- The 102-byte magic packet built inside SendMagicPacket(): a first loop
appends six 0xFF bytes, then sixteen iterations of an inner loop append the
six bytes of remote_MAC_ADD (IndexArray of the sketch is the append
position). -/
def magicPacket : List Nat :=
  let p := (List.range 6).foldl (fun acc _ => acc ++ [0xFF]) []
  (List.range 16).foldl
    (fun acc _ =>
      (List.range 6).foldl (fun acc2 j => acc2 ++ [remote_MAC_ADD.getD j 0]) acc)
    p

/-- SendMagicPacket(): builds the packet above and broadcasts it. -/
def SendMagicPacket (s : St) : St :=
  emit (Ev.udpPacket magicPacket) s

/-- WakeupGoPro(): Udp.begin, delay(2000), send the magic packet,
delay(6000), flush, delay(1000), Udp.stop, delay(1000), log.  Udp
begin/flush/stop have no observable effect in the model. -/
def WakeupGoPro (s : St) : St :=
  let s := delayMs 2000 s
  let s := SendMagicPacket s
  let s := delayMs 6000 s
  let s := delayMs 1000 s
  let s := delayMs 1000 s
  printInLog "Waking up GoPro" s

/-- MagneticSwitch(): LEDmagswitch off, poll the switch until asserted
(the blocking poll is modelled as returning when the user triggers, taking
no model time), LEDmagswitch on, log. -/
def MagneticSwitch (s : St) : St :=
  let s := emit (Ev.ledMag false) s
  let s := emit (Ev.ledMag true) s
  printInLog "Magnetic switch activated" s

/-- The request payload `String("GET ") + url + " HTTP/1.1\r\n" + "Host: "
+ host + "\r\n" + "Connection: close\r\n\r\n"` sent by both recording
commands (they build it with the same concatenation, differing only in the
url). -/
def mkRequest (url : String) : String :=
  "GET " ++ url ++ " HTTP/1.1\r\n" ++ "Host: " ++ host ++ "\r\n" ++
    "Connection: close\r\n\r\n"

/-- StartRecording(): if client.connect("10.5.5.9", 80) fails (`connOk =
false`), log the failure and return; otherwise print the GET request for
the start url and log success. -/
def StartRecording (connOk : Bool) (s : St) : St :=
  if !connOk then
    printInLog "Start recording failed" s
  else
    let s := emit (Ev.clientPrint (mkRequest "/gp/gpControl/command/shutter?p=1")) s
    printInLog "GoPro started recording" s

/-- StopRecording(): same shape as StartRecording with the stop url. -/
def StopRecording (connOk : Bool) (s : St) : St :=
  if !connOk then
    printInLog "Stop recording failed" s
  else
    let s := emit (Ev.clientPrint (mkRequest "/gp/gpControl/command/shutter?p=0")) s
    printInLog "GoPro stopped recording" s

/-- The ramp-up in loop(): `for(int i=0; i<255; i++){ analogWrite(lightsPin,
i); delay(5); }` — writes the values 0,1,...,254. -/
def rampUpLights (s : St) : St :=
  (List.range 255).foldl (fun s2 i => delayMs 5 (emit (Ev.lightsA i) s2)) s

/-- The ramp-down in loop(): `for(int i=255; i>0; i--){
analogWrite(lightsPin, i); delay(50); }` — writes 255,254,...,1. -/
def rampDownLights (s : St) : St :=
  ((List.range 255).map (fun k => 255 - k)).foldl
    (fun s2 i => delayMs 50 (emit (Ev.lightsA i) s2)) s

/-- DisconnectFromGoPro(): WiFi.disconnect and LEDwifi off. -/
def DisconnectFromGoPro (s : St) : St :=
  let s := emit Ev.wifiDisconnect s
  emit (Ev.ledWifi false) s

/-- loop() lines 152-159: `time_now = millis()` (the deadline is fixed from
the clock at entry), the departure log line, then the descent wait loop. -/
def descentPhase (env : Nat → Reading) (s : St) : St :=
  waitLoop env (s.clock + dropTime * oneMinute)
    (printInLog "blue_eye on its way to the deep sea" s)

/-- loop() lines 173-179: `time_now = millis()` then the recording wait
loop. -/
def recordPhase (env : Nat → Reading) (s : St) : St :=
  waitLoop env (s.clock + recordingTime * oneMinute) s

/-- loop() lines 148-179: trigger, wake, descent wait loop, arrival logs,
lights up, start recording, recording wait loop.  `connStart` is the
outcome of StartRecording's client.connect attempt. -/
def missionUpToRecording (env : Nat → Reading) (connStart : Bool) (s : St) : St :=
  recordPhase env
    (StartRecording connStart
      (rampUpLights
        (printInLog "Turning lights on"
          (printInLog "blue_eye arrived to the seabed"
            (descentPhase env
              (WakeupGoPro (MagneticSwitch s)))))))

/-- One execution of loop() (lines 146-204), which is also the whole
mission: lines 148-179 (`missionUpToRecording`) followed by lines 183-202
(stop recording, ramp the lights down, lights pin low, log, BurnWire,
disconnect, LED off).  After that the sketch spins forever in
`while(justWait == true) {}`, so the body never runs a second time and the
trace ends there.  `connStart`/`connStop` are the outcomes of the two
client.connect attempts. -/
def missionBody (env : Nat → Reading) (connStart connStop : Bool) (s : St) : St :=
  emit (Ev.ledMag false)
    (DisconnectFromGoPro
      (BurnWire
        (printInLog "Turning lights off"
          (emit (Ev.lightsD false)
            (rampDownLights
              (StopRecording connStop
                (missionUpToRecording env connStart s)))))))

/-- A full mission starting from clock 0, sample 0, empty trace. -/
def runMission (env : Nat → Reading) (connStart connStop : Bool) : St :=
  missionBody env connStart connStop ⟨0, 0, []⟩

-- ------------------------------------------------------------------
-- Boot-time model of the log file (setup(), initializeLog, printInLog).
-- Only the operations touching the log file are modelled here; pin setup
-- and RTC initialization do not affect the file.
-- ------------------------------------------------------------------

/-- Operations performed on the log file. -/
inductive FsOp where
  /-- SD.remove(nameLog). -/
  | remove
  /-- A successful append of one line (File.println + close). -/
  | append (msg : String)
deriving DecidableEq

/-- Boot state: `sdReady` records whether SD.begin has succeeded (the
Arduino SD library makes SD.open fail before then, so printInLog appends
nothing), `fileExists` whether log.txt currently exists, `ops` the file
operations so far, `halted` whether setup() entered one of its `while(1)`
halt loops. -/
structure BootSt where
  sdReady : Bool
  fileExists : Bool
  ops : List FsOp
  halted : Bool
deriving DecidableEq

/-- printInLog at boot time: SD.open(nameLog, FILE_WRITE) succeeds only
once SD.begin has, in which case it creates the file if needed and appends
one line; otherwise the entry is silently dropped. -/
def printInLogBoot (msg : String) (b : BootSt) : BootSt :=
  if b.sdReady then
    { b with ops := b.ops ++ [FsOp.append msg], fileExists := true }
  else b

/-- initializeLog(): remove any previous log file so a new log starts. -/
def initializeLog (b : BootSt) : BootSt :=
  if b.fileExists then
    { b with ops := b.ops ++ [FsOp.remove], fileExists := false }
  else b

/-- ConnectToGoPro(): `retries` failed WiFi.begin polls, each logging two
lines, then the success log.  (LED and lights blinking writes are not file
operations.) -/
def ConnectToGoPro (retries : Nat) (b : BootSt) : BootSt :=
  let b := (List.range retries).foldl
    (fun b2 _ =>
      printInLogBoot "(wifi status)"
        (printInLogBoot "Arduino is attempting to connect to GoPro WiFi ..." b2))
    b
  printInLogBoot "Arduino is connected to GoPro WiFi network" b

/-- setup() (lines 95-143) restricted to its log-file behaviour:
the greeting printInLog runs before SD.begin, so it appends nothing; if the
SD card is absent the failure message is also unwritable and the sketch
halts; otherwise initializeLog truncates, then the WiFi check may log and
halt, then ConnectToGoPro logs. `prevLog` says whether a log.txt from an
earlier boot exists on the card. -/
def setupBoot (sdPresent wifiPresent : Bool) (prevLog : Bool) (retries : Nat) : BootSt :=
  let b : BootSt := ⟨false, prevLog, [], false⟩
  let b := printInLogBoot "Hello! Welcome to the blue_eye 2.0" b
  if !sdPresent then
    { printInLogBoot "SD card failed, or not present in MEM Shield" b with halted := true }
  else
    let b := { b with sdReady := true }
    let b := initializeLog b
    if !wifiPresent then
      { printInLogBoot "WiFi chipset not present in Arduino" b with halted := true }
    else
      ConnectToGoPro retries b

/-- The file operation performed for one mission event: printInLog appends
one line per log call (the SD card is ready during the mission); no other
event touches the log file. -/
def evToFs (e : Ev) : Option FsOp :=
  match e with
  | Ev.log m => some (FsOp.append m)
  | Ev.logReading _ => some (FsOp.append "(humidity and temperature)")
  | _ => none

/-- True for append operations (the only non-append operation is the
boot-time SD.remove). -/
def isAppend (op : FsOp) : Bool :=
  match op with
  | FsOp.remove => false
  | FsOp.append _ => true

/-- The log-file operations of a whole power cycle: those of setup(),
followed (when setup did not halt) by one append per mission log line. -/
def powerCycleOps (sdPresent wifiPresent prevLog : Bool) (retries : Nat)
    (env : Nat → Reading) (connStart connStop : Bool) : List FsOp :=
  let b := setupBoot sdPresent wifiPresent prevLog retries
  b.ops ++
    (if b.halted then [] else
      (runMission env connStart connStop).events.filterMap evToFs)

-- ------------------------------------------------------------------
-- Trace observations used by the claims.
-- ------------------------------------------------------------------

/-- Number of burnwire activations (digitalWrite(burnwirePin, HIGH))
in a trace. -/
def burnsOn (l : List Ev) : Nat :=
  l.countP (fun e => decide (e = Ev.burn true))

/-- The sequence of intensities written to the lights pin by analogWrite. -/
def lightWrites (l : List Ev) : List Nat :=
  l.filterMap (fun e =>
    match e with
    | Ev.lightsA v => some v
    | _ => none)

/-- The request payloads actually sent to the GoPro. -/
def sentRequests (l : List Ev) : List String :=
  l.filterMap (fun e =>
    match e with
    | Ev.clientPrint r => some r
    | _ => none)

/-- The events BurnWire appends. -/
def burnEvs : List Ev :=
  [Ev.log "Burning wire", Ev.burn true, Ev.burn false,
   Ev.log "End of mission. blue_eye is coming up!"]

/-- The events one readDHT22Values call appends for reading `r`. -/
def sampleEvs (r : Reading) : List Ev :=
  (if tempFault r then burnEvs else []) ++
    [if r.h.isNone || r.t.isNone then Ev.log "Failed to read from DHT sensor"
     else Ev.logReading r]

/-- Adjacent-pair check: `stepsBy f l` holds when every two consecutive
elements a, b of `l` satisfy `f a b` (used to state unit-step
monotonicity of the light ramps executably). -/
def stepsBy (f : Nat → Nat → Bool) : List Nat → Bool
  | [] => true
  | [_] => true
  | a :: b :: t => f a b && stepsBy f (b :: t)

/-- Number of faulting readings among samples `a, a+1, ..., a+n-1`. -/
def countFaults (env : Nat → Reading) (a n : Nat) : Nat :=
  (List.range' a n).countP (fun k => tempFault (env k))

-- Concrete environments used in witnesses and counterexamples.

/-- All samples valid and cool (50% humidity, 25°C). -/
def envGood : Nat → Reading := fun _ => ⟨some 50, some 25⟩

/-- Every sample reads 85°C: a thermal fault on the first sample taken. -/
def envHot : Nat → Reading := fun _ => ⟨some 50, some 85⟩

/-- The first sample reads 85°C, the rest are cool. -/
def envHotFirst : Nat → Reading := fun n =>
  if n = 0 then ⟨some 50, some 85⟩ else ⟨some 50, some 25⟩

/-- A sample at exactly the 80°C threshold. -/
def envAtThreshold : Nat → Reading := fun _ => ⟨some 50, some 80⟩

/-- Samples whose temperature is NaN (and humidity valid). -/
def envTempNaN : Nat → Reading := fun _ => ⟨some 50, none⟩

/-- Samples with 85°C temperature but NaN humidity. -/
def envHotHumNaN : Nat → Reading := fun _ => ⟨none, some 85⟩

/-- The events appended by StopRecording for a given connection outcome. -/
def stopEvs (c : Bool) : List Ev :=
  if c then
    [Ev.clientPrint (mkRequest "/gp/gpControl/command/shutter?p=0"),
     Ev.log "GoPro stopped recording"]
  else [Ev.log "Stop recording failed"]

/-- The intensities written by the ramp-down loop: 255, 254, ..., 1. -/
def rampDownVals : List Nat := (List.range 255).map (fun k => 255 - k)

/-- The ramp-down writes as events. -/
def rampDownEvs : List Ev := rampDownVals.map Ev.lightsA

-- ------------------------------------------------------------------
-- Basic equations for the atomic stages.
-- ------------------------------------------------------------------

@[simp] theorem emit_clock (e : Ev) (s : St) : (emit e s).clock = s.clock := rfl

@[simp] theorem emit_idx (e : Ev) (s : St) : (emit e s).idx = s.idx := rfl

@[simp] theorem emit_events (e : Ev) (s : St) :
    (emit e s).events = s.events ++ [e] := rfl

@[simp] theorem delayMs_clock (ms : Nat) (s : St) :
    (delayMs ms s).clock = s.clock + ms := rfl

@[simp] theorem delayMs_idx (ms : Nat) (s : St) : (delayMs ms s).idx = s.idx := rfl

@[simp] theorem delayMs_events (ms : Nat) (s : St) :
    (delayMs ms s).events = s.events := rfl

@[simp] theorem printInLog_clock (m : String) (s : St) :
    (printInLog m s).clock = s.clock := rfl

@[simp] theorem printInLog_idx (m : String) (s : St) :
    (printInLog m s).idx = s.idx := rfl

@[simp] theorem printInLog_events (m : String) (s : St) :
    (printInLog m s).events = s.events ++ [Ev.log m] := rfl

@[simp] theorem BurnWire_clock (s : St) :
    (BurnWire s).clock = s.clock + oneMinute * 10 := rfl

@[simp] theorem BurnWire_idx (s : St) : (BurnWire s).idx = s.idx := rfl

@[simp] theorem BurnWire_events (s : St) :
    (BurnWire s).events = s.events ++ burnEvs := by
  simp [BurnWire, burnEvs, printInLog, emit, delayMs]

@[simp] theorem MagneticSwitch_clock (s : St) :
    (MagneticSwitch s).clock = s.clock := rfl

@[simp] theorem MagneticSwitch_idx (s : St) : (MagneticSwitch s).idx = s.idx := rfl

@[simp] theorem MagneticSwitch_events (s : St) :
    (MagneticSwitch s).events =
      s.events ++ [Ev.ledMag false, Ev.ledMag true, Ev.log "Magnetic switch activated"] := by
  simp [MagneticSwitch, printInLog, emit]

@[simp] theorem WakeupGoPro_clock (s : St) :
    (WakeupGoPro s).clock = s.clock + 10000 := rfl

@[simp] theorem WakeupGoPro_idx (s : St) : (WakeupGoPro s).idx = s.idx := rfl

@[simp] theorem WakeupGoPro_events (s : St) :
    (WakeupGoPro s).events =
      s.events ++ [Ev.udpPacket magicPacket, Ev.log "Waking up GoPro"] := by
  simp [WakeupGoPro, SendMagicPacket, printInLog, emit, delayMs]

@[simp] theorem DisconnectFromGoPro_clock (s : St) :
    (DisconnectFromGoPro s).clock = s.clock := rfl

@[simp] theorem DisconnectFromGoPro_idx (s : St) :
    (DisconnectFromGoPro s).idx = s.idx := rfl

@[simp] theorem DisconnectFromGoPro_events (s : St) :
    (DisconnectFromGoPro s).events =
      s.events ++ [Ev.wifiDisconnect, Ev.ledWifi false] := by
  simp [DisconnectFromGoPro, emit]

@[simp] theorem StartRecording_clock (c : Bool) (s : St) :
    (StartRecording c s).clock = s.clock := by
  cases c <;> simp [StartRecording, printInLog, emit]

@[simp] theorem StartRecording_idx (c : Bool) (s : St) :
    (StartRecording c s).idx = s.idx := by
  cases c <;> simp [StartRecording, printInLog, emit]

@[simp] theorem StartRecording_events (c : Bool) (s : St) :
    (StartRecording c s).events = s.events ++
      (if c then [Ev.clientPrint (mkRequest "/gp/gpControl/command/shutter?p=1"),
                  Ev.log "GoPro started recording"]
       else [Ev.log "Start recording failed"]) := by
  cases c <;> simp [StartRecording, printInLog, emit]

@[simp] theorem StopRecording_clock (c : Bool) (s : St) :
    (StopRecording c s).clock = s.clock := by
  cases c <;> simp [StopRecording, printInLog, emit]

@[simp] theorem StopRecording_idx (c : Bool) (s : St) :
    (StopRecording c s).idx = s.idx := by
  cases c <;> simp [StopRecording, printInLog, emit]

@[simp] theorem StopRecording_events (c : Bool) (s : St) :
    (StopRecording c s).events = s.events ++ stopEvs c := by
  cases c <;> simp [StopRecording, stopEvs, printInLog, emit]

/-- The fold common to both light ramps only appends `lightsA` writes. -/
theorem rampFold_events (d : Nat) (l : List Nat) :
    ∀ s : St, ((l.foldl (fun s2 i => delayMs d (emit (Ev.lightsA i) s2)) s)).events
      = s.events ++ l.map Ev.lightsA := by
  induction l with
  | nil => intro s; simp
  | cons a t ih => intro s; rw [List.foldl_cons, ih]; simp

theorem rampFold_idx (d : Nat) (l : List Nat) :
    ∀ s : St, ((l.foldl (fun s2 i => delayMs d (emit (Ev.lightsA i) s2)) s)).idx = s.idx := by
  induction l with
  | nil => intro s; simp
  | cons a t ih => intro s; rw [List.foldl_cons, ih]; simp

@[simp] theorem rampUpLights_events (s : St) :
    (rampUpLights s).events = s.events ++ (List.range 255).map Ev.lightsA := by
  simp [rampUpLights, rampFold_events]

@[simp] theorem rampUpLights_idx (s : St) : (rampUpLights s).idx = s.idx := by
  simp [rampUpLights, rampFold_idx]

@[simp] theorem rampDownLights_events (s : St) :
    (rampDownLights s).events = s.events ++ rampDownEvs := by
  simp [rampDownLights, rampDownEvs, rampDownVals, rampFold_events]

@[simp] theorem rampDownLights_idx (s : St) : (rampDownLights s).idx = s.idx := by
  simp [rampDownLights, rampFold_idx]

-- ------------------------------------------------------------------
-- Characterization of one readDHT22Values call.
-- ------------------------------------------------------------------

theorem readDHT22Values_clock (env : Nat → Reading) (s : St) :
    (readDHT22Values env s).clock =
      s.clock + (if tempFault (env s.idx) then oneMinute * 10 else 0) := by
  unfold readDHT22Values
  cases hf : tempFault (env s.idx) <;>
    cases hv : ((env s.idx).h.isNone || (env s.idx).t.isNone) <;>
      simp [hf, hv]

theorem readDHT22Values_idx (env : Nat → Reading) (s : St) :
    (readDHT22Values env s).idx = s.idx + 1 := by
  unfold readDHT22Values
  cases hf : tempFault (env s.idx) <;>
    cases hv : ((env s.idx).h.isNone || (env s.idx).t.isNone) <;>
      simp [hf, hv]

theorem readDHT22Values_events (env : Nat → Reading) (s : St) :
    (readDHT22Values env s).events = s.events ++ sampleEvs (env s.idx) := by
  unfold readDHT22Values
  cases hf : tempFault (env s.idx) <;>
    cases hv : ((env s.idx).h.isNone || (env s.idx).t.isNone) <;>
      simp [hf, hv, sampleEvs]

theorem readDHT22Values_clock_ge (env : Nat → Reading) (s : St) :
    s.clock ≤ (readDHT22Values env s).clock := by
  rw [readDHT22Values_clock]; exact Nat.le_add_right _ _

theorem burnsOn_append (l1 l2 : List Ev) :
    burnsOn (l1 ++ l2) = burnsOn l1 + burnsOn l2 := by
  simp [burnsOn, List.countP_append]

theorem burnsOn_sampleEvs (r : Reading) :
    burnsOn (sampleEvs r) = if tempFault r then 1 else 0 := by
  cases hf : tempFault r <;> cases hv : (r.h.isNone || r.t.isNone) <;>
    simp [sampleEvs, burnsOn, burnEvs, hf, hv, List.countP_cons]

-- ------------------------------------------------------------------
-- Characterization of the wait loops.
-- ------------------------------------------------------------------

@[simp] theorem waitAux_zero (env : Nat → Reading) (dl : Nat) (s : St) :
    waitAux env dl 0 s = s := rfl

theorem waitAux_succ (env : Nat → Reading) (dl f : Nat) (s : St) :
    waitAux env dl (f + 1) s =
      if s.clock < dl then waitAux env dl f (delayMs oneMinute (readDHT22Values env s))
      else s := rfl

/-- Fuel does not matter once it covers the remaining time: each iteration
moves the clock at least `oneMinute` closer to the deadline. -/
theorem waitAux_fuel (env : Nat → Reading) (dl : Nat) :
    ∀ f g (s : St), dl - s.clock ≤ f → dl - s.clock ≤ g →
      waitAux env dl f s = waitAux env dl g s := by
  intro f
  induction f with
  | zero =>
    intro g s hf hg
    cases g with
    | zero => rfl
    | succ g =>
      rw [waitAux_zero, waitAux_succ, if_neg]
      omega
  | succ n ih =>
    intro g s hf hg
    cases g with
    | zero =>
      rw [waitAux_zero, waitAux_succ, if_neg]
      omega
    | succ g =>
      rw [waitAux_succ, waitAux_succ]
      by_cases hc : s.clock < dl
      · rw [if_pos hc, if_pos hc]
        have hrc := readDHT22Values_clock_ge env s
        apply ih
        · simp [oneMinute]; omega
        · simp [oneMinute]; omega
      · rw [if_neg hc, if_neg hc]

/-- The while loop satisfies its defining equation: the fueled embedding
is exact, not an approximation. -/
theorem waitLoop_eq (env : Nat → Reading) (dl : Nat) (s : St) :
    waitLoop env dl s =
      if s.clock < dl then waitLoop env dl (delayMs oneMinute (readDHT22Values env s))
      else s := by
  unfold waitLoop
  by_cases hc : s.clock < dl
  · rw [if_pos hc]
    obtain ⟨m, hm⟩ : ∃ m, dl - s.clock = m + 1 := ⟨dl - s.clock - 1, by omega⟩
    rw [hm, waitAux_succ, if_pos hc]
    apply waitAux_fuel
    · have := readDHT22Values_clock_ge env s
      simp [oneMinute]; omega
    · simp
  · rw [if_neg hc]
    have h0 : dl - s.clock = 0 := by omega
    rw [h0, waitAux_zero]

/-- Trace shape of the wait loop, for any fuel: the final sample counter is
at least the initial one and the appended events are exactly the
concatenated per-sample blocks of the samples taken. -/
theorem waitAux_trace (env : Nat → Reading) (dl : Nat) :
    ∀ (f : Nat) (s : St),
      s.idx ≤ (waitAux env dl f s).idx ∧
      (waitAux env dl f s).events = s.events ++
        ((List.range' s.idx ((waitAux env dl f s).idx - s.idx)).map
          (fun k => sampleEvs (env k))).flatten := by
  intro f
  induction f with
  | zero => intro s; simp
  | succ n ih =>
    intro s
    rw [waitAux_succ]
    by_cases hc : s.clock < dl
    · rw [if_pos hc]
      obtain ⟨hidx, hev⟩ := ih (delayMs oneMinute (readDHT22Values env s))
      rw [delayMs_idx, readDHT22Values_idx] at hidx
      rw [delayMs_events, readDHT22Values_events, delayMs_idx, readDHT22Values_idx] at hev
      constructor
      · omega
      · rw [hev]
        have hm : (waitAux env dl n (delayMs oneMinute (readDHT22Values env s))).idx - s.idx
            = ((waitAux env dl n (delayMs oneMinute (readDHT22Values env s))).idx - (s.idx + 1)) + 1 := by
          omega
        rw [hm, List.range'_succ s.idx _ 1, List.map_cons, List.flatten_cons,
          List.append_assoc]
    · rw [if_neg hc]
      simp

/-- Burnwire count of the wait loop: one per faulting sample taken. -/
theorem waitLoop_burns (env : Nat → Reading) (dl : Nat) (s : St) :
    burnsOn (waitLoop env dl s).events = burnsOn s.events +
      countFaults env s.idx ((waitLoop env dl s).idx - s.idx) := by
  obtain ⟨hidx, hev⟩ := waitAux_trace env dl (dl - s.clock) s
  unfold waitLoop
  rw [hev, burnsOn_append]
  congr 1
  generalize (waitAux env dl (dl - s.clock) s).idx - s.idx = m
  unfold countFaults
  induction List.range' s.idx m with
  | nil => simp [burnsOn]
  | cons a t ih =>
    rw [List.map_cons, List.flatten_cons, burnsOn_append, ih, List.countP_cons,
      burnsOn_sampleEvs]
    cases hf : tempFault (env a) <;> simp [hf, Nat.add_comm]

theorem waitLoop_idx_ge (env : Nat → Reading) (dl : Nat) (s : St) :
    s.idx ≤ (waitLoop env dl s).idx :=
  (waitAux_trace env dl (dl - s.clock) s).1

/-- With no faulting sample, the loop runs exactly
`ceil((dl - clock) / oneMinute)` iterations, each costing one sampling
interval of wall-clock time. -/
theorem waitAux_nofault (env : Nat → Reading) (dl : Nat)
    (hf : ∀ k, tempFault (env k) = false) :
    ∀ (f : Nat) (s : St), dl - s.clock ≤ f →
      (waitAux env dl f s).clock =
        s.clock + oneMinute * ((dl - s.clock + (oneMinute - 1)) / oneMinute) ∧
      (waitAux env dl f s).idx =
        s.idx + ((dl - s.clock + (oneMinute - 1)) / oneMinute) := by
  intro f
  induction f with
  | zero =>
    intro s hle
    have h0 : dl - s.clock = 0 := by omega
    rw [waitAux_zero, h0]
    simp [oneMinute]
  | succ n ih =>
    intro s hle
    rw [waitAux_succ]
    by_cases hc : s.clock < dl
    · rw [if_pos hc]
      have hrc : (readDHT22Values env s).clock = s.clock := by
        rw [readDHT22Values_clock, hf]; simp
      have h2c : (delayMs oneMinute (readDHT22Values env s)).clock
          = s.clock + oneMinute := by rw [delayMs_clock, hrc]
      have h2i : (delayMs oneMinute (readDHT22Values env s)).idx = s.idx + 1 := by
        rw [delayMs_idx, readDHT22Values_idx]
      have hle2 : dl - (delayMs oneMinute (readDHT22Values env s)).clock ≤ n := by
        rw [h2c]; simp only [oneMinute] at *; omega
      obtain ⟨hcl, hix⟩ := ih (delayMs oneMinute (readDHT22Values env s)) hle2
      rw [hcl, hix, h2c, h2i]
      simp only [oneMinute] at *
      constructor <;> omega
    · rw [if_neg hc]
      have h0 : dl - s.clock = 0 := by omega
      rw [h0]
      simp [oneMinute]

/-- Wait-loop timing without faults, phrased on `waitLoop` with the
deadline the sketch uses (`millis()` at entry plus the phase duration). -/
theorem waitLoop_nofault (env : Nat → Reading) (D : Nat) (s : St)
    (hf : ∀ k, tempFault (env k) = false) :
    (waitLoop env (s.clock + D) s).clock =
      s.clock + oneMinute * ((D + (oneMinute - 1)) / oneMinute) ∧
    (waitLoop env (s.clock + D) s).idx =
      s.idx + ((D + (oneMinute - 1)) / oneMinute) := by
  have h := waitAux_nofault env (s.clock + D) hf (s.clock + D - s.clock) s (le_refl _)
  unfold waitLoop
  have hD : s.clock + D - s.clock = D := by omega
  rw [hD] at h ⊢
  exact h

-- ------------------------------------------------------------------
-- Burn counting helpers and mission-level decomposition.
-- ------------------------------------------------------------------

@[simp] theorem burnsOn_nil : burnsOn [] = 0 := rfl

@[simp] theorem burnsOn_cons (e : Ev) (l : List Ev) :
    burnsOn (e :: l) = burnsOn l + if e = Ev.burn true then 1 else 0 := by
  simp [burnsOn, List.countP_cons]

@[simp] theorem burnsOn_lightsA_map (l : List Nat) :
    burnsOn (l.map Ev.lightsA) = 0 := by
  induction l with
  | nil => rfl
  | cons a t ih => simp [ih]

@[simp] theorem burnsOn_stopEvs (c : Bool) : burnsOn (stopEvs c) = 0 := by
  cases c <;> simp [stopEvs]

@[simp] theorem burnsOn_burnEvs : burnsOn burnEvs = 1 := by
  simp [burnEvs]

@[simp] theorem burnsOn_rampDownEvs : burnsOn rampDownEvs = 0 := by
  simp [rampDownEvs]

theorem descentPhase_idx_ge (env : Nat → Reading) (s : St) :
    s.idx ≤ (descentPhase env s).idx := by
  unfold descentPhase
  have h := waitLoop_idx_ge env
    (s.clock + dropTime * oneMinute) (printInLog "blue_eye on its way to the deep sea" s)
  rw [printInLog_idx] at h
  exact h

theorem descentPhase_burns (env : Nat → Reading) (s : St) :
    burnsOn (descentPhase env s).events = burnsOn s.events +
      countFaults env s.idx ((descentPhase env s).idx - s.idx) := by
  unfold descentPhase
  have h := waitLoop_burns env
    (s.clock + dropTime * oneMinute) (printInLog "blue_eye on its way to the deep sea" s)
  rw [printInLog_idx, printInLog_events, burnsOn_append] at h
  rw [h]
  simp

theorem recordPhase_idx_ge (env : Nat → Reading) (s : St) :
    s.idx ≤ (recordPhase env s).idx :=
  waitLoop_idx_ge env (s.clock + recordingTime * oneMinute) s

theorem recordPhase_burns (env : Nat → Reading) (s : St) :
    burnsOn (recordPhase env s).events = burnsOn s.events +
      countFaults env s.idx ((recordPhase env s).idx - s.idx) :=
  waitLoop_burns env (s.clock + recordingTime * oneMinute) s

theorem wakeSeg_idx (s : St) : (WakeupGoPro (MagneticSwitch s)).idx = s.idx := by
  simp

theorem wakeSeg_burns (s : St) :
    burnsOn (WakeupGoPro (MagneticSwitch s)).events = burnsOn s.events := by
  simp [burnsOn_append]

theorem preRecordSeg_idx (c1 : Bool) (sB : St) :
    (StartRecording c1 (rampUpLights (printInLog "Turning lights on"
      (printInLog "blue_eye arrived to the seabed" sB)))).idx = sB.idx := by
  simp

theorem preRecordSeg_burns (c1 : Bool) (sB : St) :
    burnsOn (StartRecording c1 (rampUpLights (printInLog "Turning lights on"
      (printInLog "blue_eye arrived to the seabed" sB)))).events = burnsOn sB.events := by
  cases c1 <;> simp [StartRecording, printInLog, emit, burnsOn_append]

theorem missionUpToRecording_spec (env : Nat → Reading) (c1 : Bool) (s : St) :
    ∃ n1 n2,
      (missionUpToRecording env c1 s).idx = s.idx + n1 + n2 ∧
      burnsOn (missionUpToRecording env c1 s).events =
        burnsOn s.events + countFaults env s.idx n1 +
          countFaults env (s.idx + n1) n2 := by
  have hAidx := wakeSeg_idx s
  have hAburn := wakeSeg_burns s
  unfold missionUpToRecording
  generalize hA : WakeupGoPro (MagneticSwitch s) = sA at hAidx hAburn ⊢
  have hBidx := descentPhase_idx_ge env sA
  have hBburn := descentPhase_burns env sA
  generalize hB : descentPhase env sA = sB at hBidx hBburn ⊢
  have hCidx := preRecordSeg_idx c1 sB
  have hCburn := preRecordSeg_burns c1 sB
  generalize hC : StartRecording c1 (rampUpLights (printInLog "Turning lights on"
    (printInLog "blue_eye arrived to the seabed" sB))) = sC at hCidx hCburn ⊢
  have hDidx := recordPhase_idx_ge env sC
  have hDburn := recordPhase_burns env sC
  refine ⟨sB.idx - s.idx, (recordPhase env sC).idx - sB.idx, ?_, ?_⟩
  · omega
  · rw [hDburn, hCburn, hBburn, hAburn, hAidx, hCidx]
    have h1 : s.idx + (sB.idx - s.idx) = sB.idx := by omega
    rw [h1]

theorem tailSeg_idx (c2 : Bool) (sM : St) :
    (emit (Ev.ledMag false) (DisconnectFromGoPro (BurnWire (printInLog "Turning lights off"
      (emit (Ev.lightsD false) (rampDownLights (StopRecording c2 sM))))))).idx = sM.idx := by
  rw [emit_idx, DisconnectFromGoPro_idx, BurnWire_idx, printInLog_idx, emit_idx,
    rampDownLights_idx, StopRecording_idx]

theorem tailSeg_events (c2 : Bool) (sM : St) :
    (emit (Ev.ledMag false) (DisconnectFromGoPro (BurnWire (printInLog "Turning lights off"
      (emit (Ev.lightsD false) (rampDownLights (StopRecording c2 sM))))))).events =
      sM.events ++ stopEvs c2 ++ rampDownEvs ++
        [Ev.lightsD false, Ev.log "Turning lights off"] ++ burnEvs ++
        [Ev.wifiDisconnect, Ev.ledWifi false, Ev.ledMag false] := by
  rw [emit_events, DisconnectFromGoPro_events, BurnWire_events, printInLog_events,
    emit_events, rampDownLights_events, StopRecording_events]
  simp only [List.append_assoc, List.cons_append, List.nil_append]

theorem missionBody_idx (env : Nat → Reading) (c1 c2 : Bool) (s : St) :
    (missionBody env c1 c2 s).idx = (missionUpToRecording env c1 s).idx :=
  tailSeg_idx c2 (missionUpToRecording env c1 s)

theorem missionBody_events (env : Nat → Reading) (c1 c2 : Bool) (s : St) :
    (missionBody env c1 c2 s).events =
      (missionUpToRecording env c1 s).events ++ stopEvs c2 ++ rampDownEvs ++
        [Ev.lightsD false, Ev.log "Turning lights off"] ++ burnEvs ++
        [Ev.wifiDisconnect, Ev.ledWifi false, Ev.ledMag false] :=
  tailSeg_events c2 (missionUpToRecording env c1 s)

theorem runMission_idx (env : Nat → Reading) (c1 c2 : Bool) :
    (runMission env c1 c2).idx = (missionUpToRecording env c1 ⟨0, 0, []⟩).idx :=
  missionBody_idx env c1 c2 ⟨0, 0, []⟩

theorem runMission_tail (env : Nat → Reading) (c1 c2 : Bool) :
    (runMission env c1 c2).events =
      (missionUpToRecording env c1 ⟨0, 0, []⟩).events ++ stopEvs c2 ++ rampDownEvs ++
        [Ev.lightsD false, Ev.log "Turning lights off"] ++ burnEvs ++
        [Ev.wifiDisconnect, Ev.ledWifi false, Ev.ledMag false] :=
  missionBody_events env c1 c2 ⟨0, 0, []⟩

theorem runMission_burns (env : Nat → Reading) (c1 c2 : Bool) :
    ∃ n1 n2, (runMission env c1 c2).idx = n1 + n2 ∧
      burnsOn (runMission env c1 c2).events =
        countFaults env 0 n1 + countFaults env n1 n2 + 1 := by
  obtain ⟨n1, n2, hidx, hburn⟩ := missionUpToRecording_spec env c1 ⟨0, 0, []⟩
  have h0 : (⟨0, 0, []⟩ : St).idx = 0 := rfl
  have h1 : burnsOn (⟨0, 0, []⟩ : St).events = 0 := rfl
  rw [h0] at hidx
  rw [h0, h1] at hburn
  simp only [Nat.zero_add] at hburn
  refine ⟨n1, n2, ?_, ?_⟩
  · rw [runMission_idx, hidx]; omega
  · rw [runMission_tail]
    rw [burnsOn_append, burnsOn_append, burnsOn_append, burnsOn_append,
      burnsOn_append, burnsOn_stopEvs, burnsOn_rampDownEvs, burnsOn_burnEvs, hburn]
    have h2 : burnsOn [Ev.lightsD false, Ev.log "Turning lights off"] = 0 := rfl
    have h3 : burnsOn [Ev.wifiDisconnect, Ev.ledWifi false, Ev.ledMag false] = 0 := rfl
    rw [h2, h3]

/-- A faulting sample inside a sampled range yields a positive fault
count. -/
theorem countFaults_pos (env : Nat → Reading) (a n k : Nat)
    (h1 : a ≤ k) (h2 : k < a + n) (hf : tempFault (env k) = true) :
    0 < countFaults env a n := by
  unfold countFaults
  rw [List.countP_pos_iff]
  exact ⟨k, List.mem_range'_1.mpr ⟨h1, h2⟩, hf⟩

theorem countFaults_zero (env : Nat → Reading) (a n : Nat)
    (hf : ∀ k, tempFault (env k) = false) :
    countFaults env a n = 0 := by
  unfold countFaults
  rw [List.countP_eq_zero]
  intro k _
  simp [hf k]

-- ------------------------------------------------------------------
-- Boot-time log-file lemmas.
-- ------------------------------------------------------------------

theorem filterMap_evToFs_all (l : List Ev) :
    ((l.filterMap evToFs).all isAppend) = true := by
  induction l with
  | nil => rfl
  | cons e t ih => cases e <;> simp [evToFs, isAppend, List.filterMap_cons, ih]

theorem printInLogBoot_sdReady (m : String) (b : BootSt) :
    (printInLogBoot m b).sdReady = b.sdReady := by
  unfold printInLogBoot
  split <;> rfl

theorem printInLogBoot_ops_ready (m : String) (b : BootSt) (hb : b.sdReady = true) :
    (printInLogBoot m b).ops = b.ops ++ [FsOp.append m] := by
  unfold printInLogBoot
  rw [hb]
  simp

theorem connectFold_ops :
    ∀ (rs : List Nat) (b : BootSt), b.sdReady = true →
      ∃ l, (rs.foldl (fun b2 _ => printInLogBoot "(wifi status)"
          (printInLogBoot "Arduino is attempting to connect to GoPro WiFi ..." b2)) b).ops
            = b.ops ++ l ∧
        l.all isAppend = true ∧
        (rs.foldl (fun b2 _ => printInLogBoot "(wifi status)"
          (printInLogBoot "Arduino is attempting to connect to GoPro WiFi ..." b2)) b).sdReady
            = true := by
  intro rs
  induction rs with
  | nil => intro b hb; exact ⟨[], by simp, rfl, hb⟩
  | cons a t ih =>
    intro b hb
    rw [List.foldl_cons]
    have hb2 : (printInLogBoot "(wifi status)"
        (printInLogBoot "Arduino is attempting to connect to GoPro WiFi ..." b)).sdReady = true := by
      rw [printInLogBoot_sdReady, printInLogBoot_sdReady, hb]
    obtain ⟨l, hops, hall, hrdy⟩ := ih _ hb2
    refine ⟨[FsOp.append "Arduino is attempting to connect to GoPro WiFi ...",
      FsOp.append "(wifi status)"] ++ l, ?_, ?_, hrdy⟩
    · rw [hops, printInLogBoot_ops_ready _ _ (by rw [printInLogBoot_sdReady, hb]),
        printInLogBoot_ops_ready _ _ hb]
      simp
    · simp [isAppend] at hall ⊢
      exact hall

theorem ConnectToGoPro_ops (r : Nat) (b : BootSt) (hb : b.sdReady = true) :
    ∃ l, (ConnectToGoPro r b).ops = b.ops ++ l ∧ l.all isAppend = true := by
  unfold ConnectToGoPro
  obtain ⟨l, hops, hall, hrdy⟩ := connectFold_ops (List.range r) b hb
  refine ⟨l ++ [FsOp.append "Arduino is connected to GoPro WiFi network"], ?_, ?_⟩
  · rw [printInLogBoot_ops_ready _ _ hrdy, hops, List.append_assoc]
  · simp [isAppend] at hall ⊢
    exact hall

theorem printInLogBoot_halted (m : String) (b : BootSt) :
    (printInLogBoot m b).halted = b.halted := by
  unfold printInLogBoot
  split <;> rfl

theorem connectFold_halted :
    ∀ (rs : List Nat) (b : BootSt),
      (rs.foldl (fun b2 _ => printInLogBoot "(wifi status)"
        (printInLogBoot "Arduino is attempting to connect to GoPro WiFi ..." b2)) b).halted
          = b.halted := by
  intro rs
  induction rs with
  | nil => intro b; rfl
  | cons a t ih =>
    intro b
    rw [List.foldl_cons, ih, printInLogBoot_halted, printInLogBoot_halted]

theorem ConnectToGoPro_halted (r : Nat) (b : BootSt) :
    (ConnectToGoPro r b).halted = b.halted := by
  unfold ConnectToGoPro
  rw [printInLogBoot_halted, connectFold_halted]

/-- setup() with the SD card present: the greeting line is dropped (the SD
library rejects SD.open before SD.begin), the previous log is removed if
present, then either the WiFi check fails (one loggable line, halt) or
ConnectToGoPro runs. -/
theorem setupBoot_eq (w prev : Bool) (r : Nat) :
    setupBoot true w prev r =
      if w then ConnectToGoPro r ⟨true, false, (if prev then [FsOp.remove] else []), false⟩
      else ⟨true, true,
        (if prev then [FsOp.remove] else []) ++
          [FsOp.append "WiFi chipset not present in Arduino"], true⟩ := by
  cases w <;> cases prev <;> rfl

theorem powerCycleOps_eq (w prev : Bool) (r : Nat) (env : Nat → Reading)
    (c1 c2 : Bool) :
    powerCycleOps true w prev r env c1 c2 =
      (setupBoot true w prev r).ops ++
        (if (setupBoot true w prev r).halted then [] else
          (runMission env c1 c2).events.filterMap evToFs) := rfl

-- ------------------------------------------------------------------
-- Trace observation helpers for the recording commands and lights.
-- ------------------------------------------------------------------

theorem sentRequests_append (l1 l2 : List Ev) :
    sentRequests (l1 ++ l2) = sentRequests l1 ++ sentRequests l2 := by
  simp [sentRequests, List.filterMap_append]

theorem lightWrites_append (l1 l2 : List Ev) :
    lightWrites (l1 ++ l2) = lightWrites l1 ++ lightWrites l2 := by
  simp [lightWrites, List.filterMap_append]

theorem lightWrites_lightsA_map (l : List Nat) :
    lightWrites (l.map Ev.lightsA) = l := by
  induction l with
  | nil => rfl
  | cons a t ih => simp [lightWrites, List.filterMap_cons] at ih ⊢; exact ih

-- ==================================================================
-- Claims.
-- ==================================================================

set_option maxRecDepth 40000 in
/-- Claim C3: every wake packet is exactly 102 bytes, bytes 0-5 are 0xFF,
byte i for i in [6,102) is the remote hardware identifier at (i-6) mod 6,
and the packet broadcast by a wake attempt is this same constant whatever
the mission state, so its content is identical on every attempt. -/
theorem claim_C3 :
    magicPacket.length = 102 ∧
    (∀ i, i < 6 → magicPacket.getD i 0 = 0xFF) ∧
    (∀ i, i < 102 → 6 ≤ i → magicPacket.getD i 0 = remote_MAC_ADD.getD ((i - 6) % 6) 0) ∧
    (∀ s, (SendMagicPacket s).events = s.events ++ [Ev.udpPacket magicPacket]) ∧
    (∀ s, (WakeupGoPro s).events =
      s.events ++ [Ev.udpPacket magicPacket, Ev.log "Waking up GoPro"]) :=
  ⟨by decide, by decide, by decide, fun s => rfl, fun s => WakeupGoPro_events s⟩

/-- Witness for C3 at concrete indices 0 and 7. -/
theorem claim_C3_witness :
    magicPacket.getD 0 0 = 0xFF ∧
    magicPacket.getD 7 0 = remote_MAC_ADD.getD ((7 - 6) % 6) 0 :=
  ⟨claim_C3.2.1 0 (by decide), claim_C3.2.2.1 7 (by decide) (by decide)⟩

/-- Claim C2 counterexample: the code fires the burnwire only for
temperatures strictly above 80.0 (`t > 80.0`), so a sample of exactly
80 °C — which is ≥ the threshold — produces no Release Actuator
invocation before the next sample, contradicting the claim. -/
theorem claim_C2_counterexample :
    tempThreshold ≤ 80 ∧
    (envAtThreshold 0).t = some 80 ∧
    burnsOn (readDHT22Values envAtThreshold ⟨0, 0, []⟩).events = 0 := by
  decide

/-- Claim C2 amended: a temperature sample strictly greater than the 80 °C
threshold results in exactly one Release Actuator invocation before the
next sample is taken (within the same readDHT22Values call). -/
theorem claim_C2_amended (env : Nat → Reading) (s : St) (x : ℚ)
    (ht : (env s.idx).t = some x) (hx : tempThreshold < x) :
    burnsOn (readDHT22Values env s).events = burnsOn s.events + 1 := by
  have hf : tempFault (env s.idx) = true := by
    simp [tempFault, ht, hx]
  rw [readDHT22Values_events, burnsOn_append, burnsOn_sampleEvs, hf]
  simp

/-- Witness for the amended C2 at an 85 °C sample. -/
theorem claim_C2_amended_witness :
    burnsOn (readDHT22Values envHot ⟨0, 0, []⟩).events =
      burnsOn (⟨0, 0, []⟩ : St).events + 1 :=
  claim_C2_amended envHot ⟨0, 0, []⟩ 85 rfl (by norm_num [tempThreshold])

/-- Claim C10: the thermal-fault decision looks only at the temperature:
a NaN temperature never fires the burnwire (C's NaN > 80.0 is false), and
a valid temperature above 80 °C fires it even when the humidity is NaN —
the burn events precede the read-failure log, showing the fault check runs
before the validity check. -/
theorem claim_C10 :
    (∀ (env : Nat → Reading) (s : St), (env s.idx).t = none →
        burnsOn (readDHT22Values env s).events = burnsOn s.events) ∧
    (∀ (env : Nat → Reading) (s : St) (x : ℚ), (env s.idx).h = none →
        (env s.idx).t = some x → tempThreshold < x →
        (readDHT22Values env s).events =
          s.events ++ burnEvs ++ [Ev.log "Failed to read from DHT sensor"]) := by
  constructor
  · intro env s ht
    have hf : tempFault (env s.idx) = false := by
      simp [tempFault, ht]
    rw [readDHT22Values_events, burnsOn_append, burnsOn_sampleEvs, hf]
    simp
  · intro env s x hh ht hx
    have hf : tempFault (env s.idx) = true := by
      simp [tempFault, ht, hx]
    rw [readDHT22Values_events]
    simp [sampleEvs, hf, hh]

/-- Witness for C10: a NaN-temperature sample fires nothing; an 85 °C
sample with NaN humidity fires the burnwire and then logs the failure. -/
theorem claim_C10_witness :
    burnsOn (readDHT22Values envTempNaN ⟨0, 0, []⟩).events =
      burnsOn (⟨0, 0, []⟩ : St).events ∧
    (readDHT22Values envHotHumNaN ⟨0, 0, []⟩).events =
      (⟨0, 0, []⟩ : St).events ++ burnEvs ++ [Ev.log "Failed to read from DHT sensor"] :=
  ⟨claim_C10.1 envTempNaN ⟨0, 0, []⟩ rfl,
   claim_C10.2 envHotHumNaN ⟨0, 0, []⟩ 85 rfl rfl (by norm_num [tempThreshold])⟩

set_option maxRecDepth 40000 in
/-- Claim C8 counterexample: the ramp-up loop `for(int i=0; i<255; i++)`
never writes the intensity 255 — its last write is 254 — so rampUp does
not step "from 0 to 255" as claimed; 255 is first written by rampDown. -/
theorem claim_C8_counterexample :
    Ev.lightsA 255 ∉ (rampUpLights ⟨0, 0, []⟩).events ∧
    Ev.lightsA 254 ∈ (rampUpLights ⟨0, 0, []⟩).events := by
  decide

set_option maxRecDepth 40000 in
/-- Claim C8 amended: rampUp writes exactly 0,1,...,254 (unit increments,
monotone, within [0,255]); rampDown writes exactly 255,254,...,1 (unit
decrements, within [1,255]) and in the mission is immediately followed by
the digital LOW write (intensity 0). -/
theorem claim_C8_amended :
    (∀ s, lightWrites (rampUpLights s).events = lightWrites s.events ++ List.range 255) ∧
    (∀ s, lightWrites (rampDownLights s).events = lightWrites s.events ++ rampDownVals) ∧
    (stepsBy (fun a b => decide (b = a + 1)) (lightWrites (rampUpLights ⟨0, 0, []⟩).events) = true) ∧
    (stepsBy (fun a b => decide (a = b + 1)) (lightWrites (rampDownLights ⟨0, 0, []⟩).events) = true) ∧
    ((lightWrites (rampUpLights ⟨0, 0, []⟩).events).all (fun v => v ≤ 255) = true) ∧
    ((lightWrites (rampDownLights ⟨0, 0, []⟩).events).all
      (fun v => decide (1 ≤ v) && decide (v ≤ 255)) = true) ∧
    (∀ (env : Nat → Reading) (c1 c2 : Bool), ∃ pre rest,
      (runMission env c1 c2).events = pre ++ rampDownEvs ++ [Ev.lightsD false] ++ rest) := by
  refine ⟨?_, ?_, by decide, by decide, by decide, by decide, ?_⟩
  · intro s
    rw [rampUpLights_events, lightWrites_append, lightWrites_lightsA_map]
  · intro s
    rw [rampDownLights_events, lightWrites_append]
    unfold rampDownEvs
    rw [lightWrites_lightsA_map]
  · intro env c1 c2
    refine ⟨(missionUpToRecording env c1 ⟨0, 0, []⟩).events ++ stopEvs c2,
      [Ev.log "Turning lights off"] ++ burnEvs ++
        [Ev.wifiDisconnect, Ev.ledWifi false, Ev.ledMag false], ?_⟩
    rw [runMission_tail]
    simp only [List.append_assoc, List.cons_append, List.nil_append]

/-- Claim C7: a failed connection makes either recording command log one
failure line and return (no retry, no request sent); the two commands send
the same request text, differing only in the path; and the Sequencer
proceeds through the rest of the mission whatever the two connection
outcomes were. -/
theorem claim_C7 :
    (∀ s, StartRecording false s = printInLog "Start recording failed" s) ∧
    (∀ s, StopRecording false s = printInLog "Stop recording failed" s) ∧
    (∀ (c : Bool) s, sentRequests (StartRecording c s).events = sentRequests s.events ++
        (if c then [mkRequest "/gp/gpControl/command/shutter?p=1"] else [])) ∧
    (∀ (c : Bool) s, sentRequests (StopRecording c s).events = sentRequests s.events ++
        (if c then [mkRequest "/gp/gpControl/command/shutter?p=0"] else [])) ∧
    (∀ (env : Nat → Reading) (c1 c2 : Bool), ∃ pre,
        (runMission env c1 c2).events = pre ++ stopEvs c2 ++ rampDownEvs ++
          [Ev.lightsD false, Ev.log "Turning lights off"] ++ burnEvs ++
          [Ev.wifiDisconnect, Ev.ledWifi false, Ev.ledMag false]) := by
  refine ⟨fun s => rfl, fun s => rfl, ?_, ?_, ?_⟩
  · intro c s
    cases c <;>
      simp [StartRecording, printInLog, emit, sentRequests, List.filterMap_append,
        List.filterMap_cons]
  · intro c s
    cases c <;>
      simp [StopRecording, printInLog, emit, sentRequests, List.filterMap_append,
        List.filterMap_cons]
  · intro env c1 c2
    exact ⟨(missionUpToRecording env c1 ⟨0, 0, []⟩).events, runMission_tail env c1 c2⟩

/-- Claim C4 counterexample: with a thermal fault at the first sample, the
descent wait loop (configured duration one minute) holds the burnwire for
ten minutes inside the sample call, so the loop's elapsed time is 660000 ms
— far more than duration plus one sampling interval (120000 ms).  The
claim's "including executions where a sample raises a thermal fault" is
therefore false. -/
theorem claim_C4_counterexample :
    (waitLoop envHot ((⟨0, 0, []⟩ : St).clock + dropTime * oneMinute) ⟨0, 0, []⟩).clock -
        (⟨0, 0, []⟩ : St).clock = 660000 ∧
    ¬ ((waitLoop envHot ((⟨0, 0, []⟩ : St).clock + dropTime * oneMinute) ⟨0, 0, []⟩).clock -
        (⟨0, 0, []⟩ : St).clock < dropTime * oneMinute + oneMinute) := by
  decide

/-- Claim C4 amended: on executions where no sample raises a thermal
fault, a wait loop of configured duration D takes exactly
ceil(D / oneMinute) samples and its elapsed time is
oneMinute * ceil(D / oneMinute), which lies in [D, D + oneMinute). -/
theorem claim_C4_amended (env : Nat → Reading) (D : Nat) (s : St)
    (hf : ∀ k, tempFault (env k) = false) :
    D ≤ (waitLoop env (s.clock + D) s).clock - s.clock ∧
    (waitLoop env (s.clock + D) s).clock - s.clock < D + oneMinute ∧
    (waitLoop env (s.clock + D) s).clock - s.clock =
      oneMinute * ((D + (oneMinute - 1)) / oneMinute) ∧
    (waitLoop env (s.clock + D) s).idx - s.idx = (D + (oneMinute - 1)) / oneMinute := by
  obtain ⟨hc, hi⟩ := waitLoop_nofault env D s hf
  rw [hc, hi]
  simp only [oneMinute]
  refine ⟨?_, ?_, ?_, ?_⟩ <;> omega

/-- Witness for the amended C4: a fault-free one-minute descent loop takes
one sample and exactly one minute. -/
theorem claim_C4_amended_witness :
    60000 ≤ (waitLoop envGood ((⟨0, 0, []⟩ : St).clock + 60000) ⟨0, 0, []⟩).clock -
        (⟨0, 0, []⟩ : St).clock ∧
    (waitLoop envGood ((⟨0, 0, []⟩ : St).clock + 60000) ⟨0, 0, []⟩).clock -
        (⟨0, 0, []⟩ : St).clock < 60000 + oneMinute ∧
    (waitLoop envGood ((⟨0, 0, []⟩ : St).clock + 60000) ⟨0, 0, []⟩).clock -
        (⟨0, 0, []⟩ : St).clock = oneMinute * ((60000 + (oneMinute - 1)) / oneMinute) ∧
    (waitLoop envGood ((⟨0, 0, []⟩ : St).clock + 60000) ⟨0, 0, []⟩).idx -
        (⟨0, 0, []⟩ : St).idx = (60000 + (oneMinute - 1)) / oneMinute :=
  claim_C4_amended envGood 60000 ⟨0, 0, []⟩ (fun _ => rfl)

/-- Claim C1: a sample whose temperature is over the fault threshold fires
the Release Actuator immediately, inside that readDHT22Values call (the
burn events are the first events the call emits); the mission nevertheless
continues along the normal phase tail — stop-recording command, lights
ramp-down, lights-off, and a second BurnWire at mission end — rather than
aborting to idle, so a faulting mission burns at least twice. -/
theorem claim_C1 :
    (∀ (env : Nat → Reading) (s : St), tempFault (env s.idx) = true →
        ∃ e, (readDHT22Values env s).events = s.events ++ burnEvs ++ [e]) ∧
    (∀ (env : Nat → Reading) (c1 c2 : Bool),
        (∃ k, k < (runMission env c1 c2).idx ∧ tempFault (env k) = true) →
        2 ≤ burnsOn (runMission env c1 c2).events) ∧
    (∀ (env : Nat → Reading) (c1 c2 : Bool), ∃ pre,
        (runMission env c1 c2).events = pre ++ stopEvs c2 ++ rampDownEvs ++
          [Ev.lightsD false, Ev.log "Turning lights off"] ++ burnEvs ++
          [Ev.wifiDisconnect, Ev.ledWifi false, Ev.ledMag false]) := by
  refine ⟨?_, ?_, ?_⟩
  · intro env s hf
    rw [readDHT22Values_events]
    refine ⟨if (env s.idx).h.isNone || (env s.idx).t.isNone then
        Ev.log "Failed to read from DHT sensor"
      else Ev.logReading (env s.idx), ?_⟩
    simp [sampleEvs, hf]
  · intro env c1 c2 ⟨k, hk, hkf⟩
    obtain ⟨n1, n2, hidx, hburn⟩ := runMission_burns env c1 c2
    rw [hburn]
    rw [hidx] at hk
    rcases Nat.lt_or_ge k n1 with h | h
    · have := countFaults_pos env 0 n1 k (Nat.zero_le k) (by omega) hkf
      omega
    · have := countFaults_pos env n1 n2 k h (by omega) hkf
      omega
  · intro env c1 c2
    exact ⟨(missionUpToRecording env c1 ⟨0, 0, []⟩).events, runMission_tail env c1 c2⟩

set_option maxRecDepth 40000 in
/-- Witness for C1: an 85 °C first sample fires the burnwire inside the
sample call, and the mission with that fault burns at least twice. -/
theorem claim_C1_witness :
    (∃ e, (readDHT22Values envHot ⟨0, 0, []⟩).events =
        (⟨0, 0, []⟩ : St).events ++ burnEvs ++ [e]) ∧
    2 ≤ burnsOn (runMission envHotFirst true true).events :=
  ⟨claim_C1.1 envHot ⟨0, 0, []⟩ rfl,
   claim_C1.2.1 envHotFirst true true ⟨0, by decide, by decide⟩⟩

set_option maxRecDepth 40000 in
/-- Claim C5 counterexample: in a fault-free mission the stop-recording
command is issued BEFORE the lights ramp down — the first ramp-down write
(intensity 255, a value the ramp-up never writes) comes strictly after the
stop-recording log — so the claimed order "ramp down, then stop recording"
is false on the code. -/
theorem claim_C5_counterexample :
    Ev.log "GoPro stopped recording" ∈ (runMission envGood true true).events ∧
    Ev.lightsA 255 ∈ (runMission envGood true true).events ∧
    (runMission envGood true true).events.findIdx
        (fun e => decide (e = Ev.log "GoPro stopped recording")) <
      (runMission envGood true true).events.findIdx
        (fun e => decide (e = Ev.lightsA 255)) := by
  decide

/-- Claim C5 amended: after the recording wait loop the Sequencer stops
the recording first, then ramps the lights down, writes the lights pin
low, logs, invokes the Release Actuator, disconnects, and the trace ends
(terminal idle: `while(justWait == true) {}` emits nothing and never
exits). -/
theorem claim_C5_amended (env : Nat → Reading) (c1 c2 : Bool) :
    ∃ pre, (runMission env c1 c2).events = pre ++ stopEvs c2 ++ rampDownEvs ++
      [Ev.lightsD false, Ev.log "Turning lights off"] ++ burnEvs ++
      [Ev.wifiDisconnect, Ev.ledWifi false, Ev.ledMag false] :=
  ⟨(missionUpToRecording env c1 ⟨0, 0, []⟩).events, runMission_tail env c1 c2⟩

set_option maxRecDepth 40000 in
/-- Claim C6 counterexample: with a thermal fault at the first sample the
Release Actuator fires twice in one mission (once from the sample, once at
mission end), so "at most once per mission, with or without a thermal
fault" is false on the code. -/
theorem claim_C6_counterexample :
    ¬ (burnsOn (runMission envHotFirst true true).events ≤ 1) := by
  decide

/-- Claim C6 amended: in every mission execution where no sample raises a
thermal fault, the Release Actuator fires exactly once (the mission-end
BurnWire); with faults it fires once per faulting sample plus once at the
end. -/
theorem claim_C6_amended (env : Nat → Reading) (c1 c2 : Bool)
    (hf : ∀ k, tempFault (env k) = false) :
    burnsOn (runMission env c1 c2).events = 1 := by
  obtain ⟨n1, n2, _, hburn⟩ := runMission_burns env c1 c2
  rw [hburn, countFaults_zero env 0 n1 hf, countFaults_zero env n1 n2 hf]

/-- Witness for the amended C6 on a fault-free environment. -/
theorem claim_C6_amended_witness :
    burnsOn (runMission envGood true true).events = 1 :=
  claim_C6_amended envGood true true (fun _ => rfl)

/-- Claim C9: over a whole power cycle with the SD card present, the log
file operations are: at most one SD.remove — performed during setup, and
performed exactly when a log file from an earlier boot exists — followed
exclusively by appends; nothing after boot ever removes or rewrites the
file.  (The greeting printInLog that precedes SD.begin writes nothing,
because SD.open fails before SD.begin, so the truncation does happen
before any entry reaches the file.) -/
theorem claim_C9 (w prev : Bool) (retries : Nat) (env : Nat → Reading)
    (c1 c2 : Bool) :
    ∃ apps, powerCycleOps true w prev retries env c1 c2 =
      (if prev then [FsOp.remove] else []) ++ apps ∧
      apps.all isAppend = true := by
  rw [powerCycleOps_eq, setupBoot_eq]
  cases w with
  | false =>
    cases prev <;>
      exact ⟨[FsOp.append "WiFi chipset not present in Arduino"], rfl, rfl⟩
  | true =>
    simp only [if_true]
    obtain ⟨l, hops, hall⟩ := ConnectToGoPro_ops retries
      ⟨true, false, (if prev then [FsOp.remove] else []), false⟩ rfl
    have hh : (ConnectToGoPro retries
        ⟨true, false, (if prev then [FsOp.remove] else []), false⟩).halted = false :=
      ConnectToGoPro_halted retries _
    refine ⟨l ++ (runMission env c1 c2).events.filterMap evToFs, ?_, ?_⟩
    · rw [hh, hops]
      simp [List.append_assoc]
    · rw [List.all_append, hall, filterMap_evToFs_all]
      rfl

end BlueEye
